import Mathlib

set_option maxHeartbeats 1000000

/- Shallow embedding of the simulation core of the snake game (src/src/lib.rs).
   Coordinates, scales and velocities use ℚ in place of f32: every claim settled
   here is about exact arithmetic or about control flow that does not depend on
   rounding. Engine-only data (sprite presets, key codes, audio) is omitted;
   the sprite registry is modelled as an association list keyed by label. -/

/-- Maximum number of player slots (src constant MAX_NR_PLAYERS). -/
def MAX_NR_PLAYERS : Nat := 4

/-- Starting max trail length of a player (src constant PLAYER_STARTING_MAX_LEN). -/
def PLAYER_STARTING_MAX_LEN : Nat := 4

/-- Freeze time in seconds after a player lost (src constant PLAYER_LOOSE_TIMEOUT). -/
def PLAYER_LOOSE_TIMEOUT : ℚ := 5

/-- Distance a player head moves per move tick (src constant PLAYER_MOVE_DISTANCE). -/
def PLAYER_MOVE_DISTANCE : ℚ := 10

/-- Facing direction of a player (src enum Direction). -/
inductive Direction
  | UP
  | RIGHT
  | DOWN
  | LEFT
deriving DecidableEq

/-- Lifecycle state of a player (src enum PlayerState). -/
inductive PlayerState
  | WAITING
  | PLAYING
  | LOST
deriving DecidableEq

/-- Two dimensional vector (engine type Vec2), over ℚ. -/
structure Vec2 where
  x : ℚ
  y : ℚ
deriving DecidableEq

/-- The sprite data the core reads and writes: position, scale (doubling as mass) and collidability. -/
structure Sprite where
  translation : Vec2
  scale : ℚ
  collision : Bool
deriving DecidableEq

/-- Per player record (src struct Player), restricted to the fields the simulation core mutates or reads; engine-only fields (sprite preset, key codes) are omitted. The loose timeout is modelled by its remaining seconds. -/
structure Player where
  idx : Nat
  head_label : String
  score_label : String
  starting_direction : Direction
  starting_position : Vec2
  labels : List String
  max_len : Nat
  serial : Nat
  direction : Direction
  state : PlayerState
  loose_timeout : ℚ
deriving DecidableEq

/-- Embeds Player::new (src lines 93-109). -/
def Player.new (inst : Nat) : Player where
  idx := inst
  head_label := "player-head" ++ toString inst
  score_label := "player-score" ++ toString inst
  starting_direction := Direction.RIGHT
  starting_position := ⟨(inst : ℚ) * 50, (inst : ℚ) * 50⟩
  labels := []
  max_len := PLAYER_STARTING_MAX_LEN
  serial := 0
  direction := Direction.RIGHT
  state := PlayerState.WAITING
  loose_timeout := PLAYER_LOOSE_TIMEOUT

/-- Embeds Player::lost (src lines 111-113). -/
def Player.lost (p : Player) : Player := { p with state := PlayerState.LOST }

/-- Embeds Player::is_playing (src lines 115-117). -/
def Player.is_playing (p : Player) : Bool := decide (p.state = PlayerState.PLAYING)

/-- Embeds Player::is_waiting (src lines 119-121). -/
def Player.is_waiting (p : Player) : Bool := decide (p.state = PlayerState.WAITING)

/-- Embeds Player::has_lost (src lines 123-125). -/
def Player.has_lost (p : Player) : Bool := decide (p.state = PlayerState.LOST)

/-- Embeds Player::deactivate (src lines 128-135): reset every mutable field to the value Player::new gave it. -/
def Player.deactivate (p : Player) : Player :=
  { p with labels := [], max_len := PLAYER_STARTING_MAX_LEN, serial := 0,
           direction := p.starting_direction, state := PlayerState.WAITING,
           loose_timeout := PLAYER_LOOSE_TIMEOUT }

/-- Embeds Player::activate (src lines 137-139). -/
def Player.activate (p : Player) : Player := { p with state := PlayerState.PLAYING }

/-- Moving obstacle (src struct Obstacle): its label and velocity; its position and scale live in its sprite. -/
structure Obstacle where
  label : String
  speed : Vec2
deriving DecidableEq

/-- Embeds Obstacle::bounce (src lines 172-190). The source mutates both speeds in place; here the new speed of self is the first component and the new speed of other the second. -/
def Obstacle.bounce (self other : Obstacle) (self_sprite other_sprite : Sprite) : Vec2 × Vec2 :=
  let x := self_sprite.translation.x - other_sprite.translation.x
  let y := self_sprite.translation.y - other_sprite.translation.y
  let d := x * x + y * y
  let u1 := (self.speed.x * x + self.speed.y * y) / d
  let u2 := (x * self.speed.y - y * self.speed.x) / d
  let u3 := (other.speed.x * x + other.speed.y * y) / d
  let u4 := (x * other.speed.y - y * other.speed.x) / d
  let mm := self_sprite.scale + other_sprite.scale
  let vu3 := (self_sprite.scale - other_sprite.scale) / mm * u1 + (2 * other_sprite.scale) / mm * u3
  let vu1 := (other_sprite.scale - self_sprite.scale) / mm * u3 + (2 * self_sprite.scale) / mm * u1
  (⟨x * vu3 - y * u2, y * vu3 + x * u2⟩, ⟨x * vu1 - y * u4, y * vu1 + x * u4⟩)

/-- Embeds the two sequential wrap ifs that appear verbatim both in new_position (src lines 302-313) and in Obstacle::do_move (src lines 200-211): a coordinate past +max is set to -max, then a coordinate below -max is set to +max. -/
def wrapAxis (maxv v : ℚ) : ℚ :=
  let v1 := if v > maxv then -maxv else v
  if v1 < -maxv then maxv else v1

/-- Embeds new_position (src lines 293-315): step from pos in direction dir by speed, then wrap each axis against the window half extents. -/
def new_position (max_x max_y : ℚ) (pos : Vec2) (dir : Direction) (speed : ℚ) : Vec2 :=
  let new_pos : Vec2 :=
    match dir with
    | Direction.UP => ⟨pos.x, pos.y + speed⟩
    | Direction.RIGHT => ⟨pos.x + speed, pos.y⟩
    | Direction.DOWN => ⟨pos.x, pos.y - speed⟩
    | Direction.LEFT => ⟨pos.x - speed, pos.y⟩
  ⟨wrapAxis max_x new_pos.x, wrapAxis max_y new_pos.y⟩

/-- Embeds the position update of Obstacle::do_move (src lines 192-213): translate the sprite by the obstacle speed, then wrap each axis. -/
def Obstacle.do_move_pos (max_x max_y : ℚ) (pos speed : Vec2) : Vec2 :=
  let new_pos : Vec2 := ⟨pos.x + speed.x, pos.y + speed.y⟩
  ⟨wrapAxis max_x new_pos.x, wrapAxis max_y new_pos.y⟩

/-- Embeds new_direction (src lines 284-291). -/
def new_direction (curr_dir : Direction) (turn_left : Bool) : Direction :=
  match curr_dir with
  | Direction.UP => if turn_left then Direction.LEFT else Direction.RIGHT
  | Direction.RIGHT => if turn_left then Direction.UP else Direction.DOWN
  | Direction.DOWN => if turn_left then Direction.RIGHT else Direction.LEFT
  | Direction.LEFT => if turn_left then Direction.DOWN else Direction.UP

/-- Lower end of the pill spawn x draw, gen_range(-(x+20.0)..(x-20.0)) at src line 350. -/
def pillXLow (half_x : ℚ) : ℚ := -(half_x + 20)

/-- Upper end (exclusive) of the pill spawn x draw at src line 350. -/
def pillXHigh (half_x : ℚ) : ℚ := half_x - 20

/-- Lower end of the pill spawn y draw, gen_range(-(y+20.0)..(y-20.0)) at src line 351. -/
def pillYLow (half_y : ℚ) : ℚ := -(half_y + 20)

/-- Upper end (exclusive) of the pill spawn y draw at src line 351. -/
def pillYHigh (half_y : ℚ) : ℚ := half_y - 20

/-- A pair (rx, ry) is a position the pill spawn of src lines 345-353 can produce iff it lies in the half open sample ranges of the two gen_range calls. -/
def pillDrawOk (half_x half_y rx ry : ℚ) : Prop :=
  (pillXLow half_x ≤ rx ∧ rx < pillXHigh half_x) ∧ (pillYLow half_y ≤ ry ∧ ry < pillYHigh half_y)

/-- Character list version of str::starts_with: the second list is a prefix of the first. -/
def startsWithL : List Char → List Char → Bool
  | _, [] => true
  | [], _ :: _ => false
  | c :: cs, p :: ps => c == p && startsWithL cs ps

/-- Embeds str::starts_with on labels. -/
def strStartsWith (s p : String) : Bool := startsWithL s.toList p.toList

/-- Two prefixes conflict when they differ at a position where both are defined; a string starting with the first then cannot start with the second. -/
def conflictL : List Char → List Char → Bool
  | a :: ps, b :: qs => (a != b) || conflictL ps qs
  | _, _ => false

/-- Head label of player slot i, format "player-head{i}" (src line 97). -/
def headLabelOf (i : Nat) : String := "player-head" ++ toString i

/-- Embeds the player lookup of src line 435: strip the "player-head" text (11 characters), take the first remaining character, truncate to u8 and subtract the code of the zero digit. The panics of the source (missing first character, u8 underflow in a debug build) become none. -/
def parseHeadIdx (label : String) : Option Nat :=
  if strStartsWith label "player-head" then
    match label.toList.drop 11 with
    | [] => none
    | c :: _ => if c.toNat % 256 < 48 then none else some (c.toNat % 256 - 48)
  else none

/-- Embeds the per player body of the player move tick (src lines 359-379) restricted to the Player record: allocate the next tail label from the player index and serial, push it at the front of the trail, and drop the oldest (back) entry when the trail length passed max_len. The sprite effects of those lines do not touch the Player record. -/
def playerMoveTick (p : Player) : Player :=
  if p.is_playing then
    let tail_label := "player-tail" ++ toString p.idx ++ "." ++ toString p.serial
    let p1 := { p with serial := p.serial + 1, labels := tail_label :: p.labels }
    if p1.labels.length > p1.max_len then { p1 with labels := p1.labels.dropLast }
    else p1
  else p

/-- One step of the tick loop that touches a player record: a player move tick (src lines 359-379), a pill consumption (src line 439), an elimination (src line 411), an activation on the first control press (src line 388), or a fatal collision (src line 443). -/
inductive PlayerTick
  | move
  | pill
  | eliminate
  | activate
  | lose
deriving DecidableEq

/-- Applies one PlayerTick to a player record, each arm embedding the source lines named on PlayerTick. -/
def applyTick (p : Player) : PlayerTick → Player
  | PlayerTick.move => playerMoveTick p
  | PlayerTick.pill => { p with max_len := p.max_len + 1 }
  | PlayerTick.eliminate => p.deactivate
  | PlayerTick.activate => p.activate
  | PlayerTick.lose => p.lost

/-- Embeds HashMap::get on the sprite registry: the first entry with the key. -/
def spritesGet : List (String × Sprite) → String → Option Sprite
  | [], _ => none
  | kv :: rest, k => if kv.1 = k then some kv.2 else spritesGet rest k

/-- Embeds HashMap::remove on the sprite registry: delete the first entry with the key. On the running engine keys are unique, so at most one entry ever matches. -/
def spritesRemove : List (String × Sprite) → String → List (String × Sprite)
  | [], _ => []
  | kv :: rest, k => if kv.1 = k then rest else kv :: spritesRemove rest k

/-- Embeds the obstacle search loop of src lines 448-456: walk the obstacle list with indices; an index whose label equals the first pair component overwrites the first slot, else one whose label equals the second component overwrites the second slot. -/
def scanObstacles : List Obstacle → Nat → String → String → Option Nat × Option Nat → Option Nat × Option Nat
  | [], _, _, _, acc => acc
  | ob :: rest, n, l1, l2, acc =>
    scanObstacles rest (n + 1) l1 l2
      (if ob.label = l1 then (some n, acc.2)
       else if ob.label = l2 then (acc.1, some n) else acc)

/-- The state the collision drain loop reads and writes: the obstacle list and player array of GameState, and the engine sprite registry. -/
structure Sim where
  obstacles : List Obstacle
  players : List Player
  sprites : List (String × Sprite)

/-- One engine collision event: the two colliding labels and whether this is an end of overlap event. -/
structure CollisionEvent where
  isEnd : Bool
  pair : String × String

/-- Embeds the body of the collision drain loop (src lines 416-465) for one event. Returns none exactly where the source panics: an unwrap on a missing value or an out of range player index. -/
def processEvent (s : Sim) (e : CollisionEvent) : Option Sim :=
  if e.isEnd then
    some s
  else if strStartsWith e.pair.1 "player-head" || strStartsWith e.pair.2 "player-head" then
    let player_label := if strStartsWith e.pair.1 "player-head" then e.pair.1 else e.pair.2
    let colliding_with_label := if strStartsWith e.pair.1 "player-head" then e.pair.2 else e.pair.1
    match parseHeadIdx player_label with
    | none => none
    | some idx =>
      match s.players.get? idx with
      | none => none
      | some player =>
        if strStartsWith colliding_with_label "pill" then
          some { s with
            players := s.players.set idx { player with max_len := player.max_len + 1 },
            sprites := spritesRemove s.sprites colliding_with_label }
        else
          some { s with players := s.players.set idx player.lost }
  else if strStartsWith e.pair.1 "obstacle" && strStartsWith e.pair.2 "obstacle" then
    match scanObstacles s.obstacles 0 e.pair.1 e.pair.2 (none, none) with
    | (some i, some j) =>
      match s.obstacles.get? i, s.obstacles.get? j with
      | some this, some other =>
        match spritesGet s.sprites this.label, spritesGet s.sprites other.label with
        | some this_sprite, some other_sprite =>
          let r := Obstacle.bounce this other this_sprite other_sprite
          some { s with obstacles :=
            (s.obstacles.set i { this with speed := r.1 }).set j { other with speed := r.2 } }
        | _, _ => none
      | _, _ => none
    | _ => some s
  else
    some s

/- Concrete states and events used by witnesses and counterexamples. -/

/-- Player 0 in the PLAYING state, used by the C1 witness. -/
def c1p0 : Player := { Player.new 0 with state := PlayerState.PLAYING }

/-- A pill sprite at the origin. -/
def c1sprite : Sprite := ⟨⟨0, 0⟩, 1, true⟩

/-- Game state for the C1 witness: player 0 playing, one pill registered. -/
def c1state : Sim :=
  { obstacles := [],
    players := [c1p0, Player.new 1, Player.new 2, Player.new 3],
    sprites := [("pill0", c1sprite)] }

/-- Collision start event pairing player 0's head with the pill. -/
def c1event : CollisionEvent := { isEnd := false, pair := ("player-head0", "pill0") }

/-- Player 0 in the PLAYING state, used by the C4 counterexample. -/
def c4p0 : Player := { Player.new 0 with state := PlayerState.PLAYING }

/-- Game state for C4: player 0 playing, one pill registered. -/
def c4state : Sim :=
  { obstacles := [],
    players := [c4p0, Player.new 1, Player.new 2, Player.new 3],
    sprites := [("pill0", ⟨⟨0, 0⟩, 1, true⟩)] }

/-- Collision start event pairing a trail segment of player 0 with the pill: no head label on either side. -/
def c4event : CollisionEvent := { isEnd := false, pair := ("player-tail0.0", "pill0") }

/-- Collision start event with player 0's head label in the second position. -/
def c4wEvent : CollisionEvent := { isEnd := false, pair := ("obstacle3", "player-head0") }

/-- Player 0 in the LOST state, used by C5. -/
def c5p0 : Player := { Player.new 0 with state := PlayerState.LOST }

/-- Game state for C5: player 0 already LOST, one pill registered. -/
def c5state : Sim :=
  { obstacles := [],
    players := [c5p0, Player.new 1, Player.new 2, Player.new 3],
    sprites := [("pill0", ⟨⟨0, 0⟩, 1, true⟩)] }

/-- Collision start event pairing the LOST player 0's head with the pill. -/
def c5event : CollisionEvent := { isEnd := false, pair := ("player-head0", "pill0") }

/-- Collision start event pairing the LOST player 0's head with a non pill label. -/
def c5wEvent : CollisionEvent := { isEnd := false, pair := ("player-head0", "obstacle7") }

/-- Collision start event with the LOST player 0's head in the second position and a non pill label first. -/
def c5w2Event : CollisionEvent := { isEnd := false, pair := ("obstacle7", "player-head0") }

/-- Player 0 in the PLAYING state, used by C6. -/
def c6p0 : Player := { Player.new 0 with state := PlayerState.PLAYING }

/-- Player 1 in the PLAYING state, used by C6. -/
def c6p1 : Player := { Player.new 1 with state := PlayerState.PLAYING }

/-- Game state for C6: players 0 and 1 both playing. -/
def c6state : Sim :=
  { obstacles := [],
    players := [c6p0, c6p1, Player.new 2, Player.new 3],
    sprites := [] }

/-- Collision start event pairing the heads of players 0 and 1. -/
def c6event : CollisionEvent := { isEnd := false, pair := ("player-head0", "player-head1") }

/-- Game state for the C10 witness: a single obstacle. -/
def c10state : Sim :=
  { obstacles := [⟨"obstacle0", ⟨1, 1⟩⟩],
    players := [Player.new 0, Player.new 1, Player.new 2, Player.new 3],
    sprites := [("obstacle0", ⟨⟨0, 0⟩, 1, true⟩)] }

/-- Collision start event naming a registered obstacle and one missing from the obstacle list. -/
def c10event : CollisionEvent := { isEnd := false, pair := ("obstacle0", "obstacle1") }

/- Helper lemmas. -/

theorem wrapAxis_mem (maxv v : ℚ) (h0 : 0 ≤ maxv) : |wrapAxis maxv v| ≤ maxv := by
  unfold wrapAxis
  dsimp only
  split_ifs <;> rw [abs_le] <;> constructor <;> linarith

theorem wrapAxis_high (maxv v : ℚ) (h : maxv < v) : wrapAxis maxv v = -maxv := by
  unfold wrapAxis
  dsimp only
  split_ifs <;> first | rfl | linarith

theorem wrapAxis_low (maxv v : ℚ) (h0 : 0 ≤ maxv) (h : v < -maxv) : wrapAxis maxv v = maxv := by
  unfold wrapAxis
  dsimp only
  split_ifs <;> first | rfl | linarith

theorem applyTick_preserves_len (p : Player) (h : p.labels.length ≤ p.max_len) (t : PlayerTick) :
    (applyTick p t).labels.length ≤ (applyTick p t).max_len := by
  cases t with
  | move =>
    simp only [applyTick, playerMoveTick]
    split
    · split
      · rename_i hgt
        simp only [List.length_dropLast, List.length_cons] at *
        omega
      · rename_i hle
        simp only [List.length_cons, Nat.not_lt] at *
        omega
    · exact h
  | pill => exact Nat.le_succ_of_le h
  | eliminate =>
    show (p.deactivate).labels.length ≤ (p.deactivate).max_len
    simp [Player.deactivate, PLAYER_STARTING_MAX_LEN]
  | activate => exact h
  | lose => exact h

theorem foldl_applyTick_len (ts : List PlayerTick) (p : Player) (h : p.labels.length ≤ p.max_len) :
    (ts.foldl applyTick p).labels.length ≤ (ts.foldl applyTick p).max_len := by
  induction ts generalizing p with
  | nil => exact h
  | cons t rest ih => exact ih _ (applyTick_preserves_len p h t)

/- Claim theorems. -/

/-- C9: for every direction, turning left and then turning right returns the original direction. -/
theorem claim9_turns_inverse : ∀ d : Direction, new_direction (new_direction d true) false = d := by
  intro d
  cases d <;> rfl

/-- C2: starting from a fresh player record, after any sequence of activations, player move ticks, pill consumptions, fatal collisions and eliminations, the trail length never exceeds the current max length. -/
theorem claim2_trail_le_max (i : Nat) (ts : List PlayerTick) :
    (ts.foldl applyTick (Player.new i)).labels.length ≤ (ts.foldl applyTick (Player.new i)).max_len :=
  foldl_applyTick_len ts (Player.new i) (by simp [Player.new])

/-- The C2 model is not degenerate: after an activation, a move tick really pushes a trail label. -/
theorem applyTick_reaches_trail :
    (([PlayerTick.activate, PlayerTick.move]).foldl applyTick (Player.new 0)).labels.length = 1 :=
  rfl

/-- The C2 model exercises the pop of src lines 376-378: six move ticks after activation leave the trail capped at the starting max length of four. -/
theorem applyTick_trail_caps :
    ((PlayerTick.activate :: List.replicate 6 PlayerTick.move).foldl applyTick
      (Player.new 0)).labels.length = 4 :=
  rfl

/-- After a pill consumption the cap rises: the same six move ticks reach five labels. -/
theorem applyTick_trail_caps_after_pill :
    ((PlayerTick.activate :: PlayerTick.pill :: List.replicate 6 PlayerTick.move).foldl applyTick
      (Player.new 0)).labels.length = 5 :=
  rfl

/-- C8: from any in-bounds position, one player step (new_position) or one obstacle step (do_move) lands in bounds on both axes, and the wrap is a teleport: a coordinate past +half extent is set to -half extent and symmetrically. -/
theorem claim8_wrap_containment (max_x max_y : ℚ) (pos : Vec2) (dir : Direction) (speed : ℚ)
    (vel : Vec2) (hx : |pos.x| ≤ max_x) (hy : |pos.y| ≤ max_y) :
    (|(new_position max_x max_y pos dir speed).x| ≤ max_x ∧
      |(new_position max_x max_y pos dir speed).y| ≤ max_y) ∧
    (|(Obstacle.do_move_pos max_x max_y pos vel).x| ≤ max_x ∧
      |(Obstacle.do_move_pos max_x max_y pos vel).y| ≤ max_y) ∧
    (∀ v, max_x < v → wrapAxis max_x v = -max_x) ∧
    (∀ v, v < -max_x → wrapAxis max_x v = max_x) := by
  have h0x : 0 ≤ max_x := le_trans (abs_nonneg _) hx
  have h0y : 0 ≤ max_y := le_trans (abs_nonneg _) hy
  refine ⟨⟨?_, ?_⟩, ⟨?_, ?_⟩, ?_, ?_⟩
  · exact wrapAxis_mem max_x _ h0x
  · exact wrapAxis_mem max_y _ h0y
  · exact wrapAxis_mem max_x _ h0x
  · exact wrapAxis_mem max_y _ h0y
  · exact fun v hv => wrapAxis_high max_x v hv
  · exact fun v hv => wrapAxis_low max_x v h0x hv

/-- Witness for C8 at a concrete input: half extents 400 and 300, position at the origin, one step right by 10, obstacle velocity (1, 2). -/
theorem claim8_wrap_containment_witness :
    |(Vec2.mk 0 0).x| ≤ (400 : ℚ) ∧ |(Vec2.mk 0 0).y| ≤ (300 : ℚ) ∧
    ((|(new_position 400 300 ⟨0, 0⟩ Direction.RIGHT 10).x| ≤ 400 ∧
      |(new_position 400 300 ⟨0, 0⟩ Direction.RIGHT 10).y| ≤ 300) ∧
    (|(Obstacle.do_move_pos 400 300 ⟨0, 0⟩ ⟨1, 2⟩).x| ≤ 400 ∧
      |(Obstacle.do_move_pos 400 300 ⟨0, 0⟩ ⟨1, 2⟩).y| ≤ 300) ∧
    (∀ v, (400 : ℚ) < v → wrapAxis 400 v = -400) ∧
    (∀ v, v < -(400 : ℚ) → wrapAxis 400 v = 400)) :=
  ⟨by norm_num, by norm_num,
    claim8_wrap_containment 400 300 ⟨0, 0⟩ Direction.RIGHT 10 ⟨1, 2⟩ (by norm_num) (by norm_num)⟩

/-- C3: for two obstacles at distinct positions with positive scales, the bounce conserves total momentum exactly (mass = sprite scale), componentwise in x and y. -/
theorem claim3_momentum (a b : Obstacle) (sa sb : Sprite)
    (hd : 0 < (sa.translation.x - sb.translation.x) * (sa.translation.x - sb.translation.x) +
      (sa.translation.y - sb.translation.y) * (sa.translation.y - sb.translation.y))
    (hma : 0 < sa.scale) (hmb : 0 < sb.scale) :
    sa.scale * (a.bounce b sa sb).1.x + sb.scale * (a.bounce b sa sb).2.x =
      sa.scale * a.speed.x + sb.scale * b.speed.x ∧
    sa.scale * (a.bounce b sa sb).1.y + sb.scale * (a.bounce b sa sb).2.y =
      sa.scale * a.speed.y + sb.scale * b.speed.y := by
  have hdne : (sa.translation.x - sb.translation.x) * (sa.translation.x - sb.translation.x) +
      (sa.translation.y - sb.translation.y) * (sa.translation.y - sb.translation.y) ≠ 0 :=
    ne_of_gt hd
  have hmm : sa.scale + sb.scale ≠ 0 := ne_of_gt (add_pos hma hmb)
  constructor <;>
    · simp only [Obstacle.bounce]
      field_simp
      ring

/-- Witness for C3 at a concrete input: obstacles with speeds (1, 2) and (-3, 0), sprites at (0, 0) and (3, 4) with scales 1 and 2. -/
theorem claim3_momentum_witness :
    (0 : ℚ) < (((0 : ℚ) - 3) * ((0 : ℚ) - 3) + ((0 : ℚ) - 4) * ((0 : ℚ) - 4)) ∧
    (0 : ℚ) < 1 ∧ (0 : ℚ) < 2 ∧
    ((1 : ℚ) * ((Obstacle.mk "obstacle0" ⟨1, 2⟩).bounce (Obstacle.mk "obstacle1" ⟨-3, 0⟩)
        ⟨⟨0, 0⟩, 1, true⟩ ⟨⟨3, 4⟩, 2, true⟩).1.x +
      (2 : ℚ) * ((Obstacle.mk "obstacle0" ⟨1, 2⟩).bounce (Obstacle.mk "obstacle1" ⟨-3, 0⟩)
        ⟨⟨0, 0⟩, 1, true⟩ ⟨⟨3, 4⟩, 2, true⟩).2.x =
        (1 : ℚ) * 1 + (2 : ℚ) * (-3) ∧
      (1 : ℚ) * ((Obstacle.mk "obstacle0" ⟨1, 2⟩).bounce (Obstacle.mk "obstacle1" ⟨-3, 0⟩)
        ⟨⟨0, 0⟩, 1, true⟩ ⟨⟨3, 4⟩, 2, true⟩).1.y +
      (2 : ℚ) * ((Obstacle.mk "obstacle0" ⟨1, 2⟩).bounce (Obstacle.mk "obstacle1" ⟨-3, 0⟩)
        ⟨⟨0, 0⟩, 1, true⟩ ⟨⟨3, 4⟩, 2, true⟩).2.y =
        (1 : ℚ) * 2 + (2 : ℚ) * 0) :=
  ⟨by norm_num, by norm_num, by norm_num,
    claim3_momentum (Obstacle.mk "obstacle0" ⟨1, 2⟩) (Obstacle.mk "obstacle1" ⟨-3, 0⟩)
      ⟨⟨0, 0⟩, 1, true⟩ ⟨⟨3, 4⟩, 2, true⟩ (by norm_num) (by norm_num) (by norm_num)⟩

/-- C7 is a code bug: the pill spawn x draw is gen_range(-(x+20.0)..(x-20.0)), so with half extents 400 and 300 the draw -410 for x is possible yet lands outside the arena, contradicting the claimed in-bounds placement. The obstacle spawn at src line 166 uses the symmetric (-x + 20.0), showing the intended inset. -/
theorem claim7_pill_out_of_bounds :
    pillDrawOk 400 300 (-410) 0 ∧ ¬ |(-410 : ℚ)| ≤ 400 := by
  constructor
  · unfold pillDrawOk pillXLow pillXHigh pillYLow pillYHigh
    norm_num
  · have habs : |(-410 : ℚ)| = 410 := by
      rw [abs_of_neg] <;> norm_num
    rw [habs]
    norm_num

/- String prefix helper lemmas. -/

theorem startsWithL_nil (l : List Char) : startsWithL l [] = true := by
  cases l <;> rfl

theorem startsWithL_append (l m : List Char) : startsWithL (l ++ m) l = true := by
  induction l with
  | nil => exact startsWithL_nil m
  | cons c cs ih => simp [startsWithL, ih]

theorem strStartsWith_append (p t : String) : strStartsWith (p ++ t) p = true := by
  have h : (p ++ t).toList = p.toList ++ t.toList := rfl
  unfold strStartsWith
  rw [h]
  exact startsWithL_append _ _

theorem startsWith_headLabelOf (i : Nat) : strStartsWith (headLabelOf i) "player-head" = true :=
  strStartsWith_append "player-head" (toString i)

theorem startsWithL_conflict (l p q : List Char) (h : startsWithL l p = true)
    (hc : conflictL p q = true) : startsWithL l q = false := by
  induction l generalizing p q with
  | nil =>
    cases p with
    | nil => cases q <;> simp [conflictL] at hc
    | cons a ps => simp [startsWithL] at h
  | cons c cs ih =>
    cases p with
    | nil => cases q <;> simp [conflictL] at hc
    | cons a ps =>
      cases q with
      | nil => simp [conflictL] at hc
      | cons b qs =>
        simp only [startsWithL, Bool.and_eq_true, beq_iff_eq] at h
        obtain ⟨hca, hrest⟩ := h
        simp only [conflictL, Bool.or_eq_true, bne_iff_ne] at hc
        simp only [startsWithL, Bool.and_eq_true, beq_iff_eq, Bool.and_eq_false_iff]
        rcases hc with hab | hc2
        · subst hca
          left
          simp only [beq_eq_false_iff_ne, ne_eq]
          exact hab
        · right
          exact ih ps qs hrest hc2

theorem strStartsWith_conflict (l : String) (p q : String) (h : strStartsWith l p = true)
    (hc : conflictL p.toList q.toList = true) : strStartsWith l q = false :=
  startsWithL_conflict l.toList p.toList q.toList h hc

theorem pill_not_head (l : String) (h : strStartsWith l "pill" = true) :
    strStartsWith l "player-head" = false :=
  strStartsWith_conflict l "pill" "player-head" h (by decide)

theorem head_not_pill (l : String) (h : strStartsWith l "player-head" = true) :
    strStartsWith l "pill" = false :=
  strStartsWith_conflict l "player-head" "pill" h (by decide)

theorem obstacle_not_head (l : String) (h : strStartsWith l "obstacle" = true) :
    strStartsWith l "player-head" = false :=
  strStartsWith_conflict l "obstacle" "player-head" h (by decide)

theorem tail_not_obstacle (l : String) (h : strStartsWith l "player-tail" = true) :
    strStartsWith l "obstacle" = false :=
  strStartsWith_conflict l "player-tail" "obstacle" h (by decide)

theorem parse_headLabelOf (i : Nat) (hi : i < MAX_NR_PLAYERS) :
    parseHeadIdx (headLabelOf i) = some i := by
  norm_num [MAX_NR_PLAYERS] at hi
  interval_cases i <;> decide

/- List and registry helper lemmas. -/

theorem list_set_get?_same {α : Type} (l : List α) (i : Nat) (a b : α)
    (h : l.get? i = some b) : (l.set i a).get? i = some a := by
  induction l generalizing i with
  | nil => simp at h
  | cons x xs ih =>
    cases i with
    | zero => rfl
    | succ n => exact ih n h

theorem list_set_get?_self {α : Type} (l : List α) (i : Nat) (a : α)
    (h : l.get? i = some a) : l.set i a = l := by
  induction l generalizing i with
  | nil => simp at h
  | cons x xs ih =>
    cases i with
    | zero =>
      simp only [List.get?] at h
      injection h with h
      simp [List.set, h]
    | succ n =>
      simp only [List.set]
      rw [ih n h]

theorem spritesRemove_length (m : List (String × Sprite)) (k : String)
    (h : spritesGet m k ≠ none) : (spritesRemove m k).length + 1 = m.length := by
  induction m with
  | nil => simp [spritesGet] at h
  | cons kv rest ih =>
    by_cases hk : kv.1 = k
    · simp [spritesRemove, hk]
    · simp only [spritesGet, hk, ite_false] at h
      simp only [spritesRemove, hk, ite_false, List.length_cons]
      have := ih h
      omega

theorem spritesRemove_get_ne (m : List (String × Sprite)) (k q : String) (hne : q ≠ k) :
    spritesGet (spritesRemove m k) q = spritesGet m q := by
  induction m with
  | nil => rfl
  | cons kv rest ih =>
    by_cases hk : kv.1 = k
    · have hq : ¬ kv.1 = q := by
        rw [hk]
        exact fun hc => hne hc.symm
      simp only [spritesRemove, if_pos hk, spritesGet, if_neg hq]
    · by_cases hq : kv.1 = q
      · simp only [spritesRemove, if_neg hk, spritesGet, if_pos hq]
      · simp only [spritesRemove, if_neg hk, spritesGet, if_neg hq]
        exact ih

/- Evaluation lemmas for processEvent. -/

theorem processEvent_head_fst (s : Sim) (e : CollisionEvent) (i : Nat) (p : Player)
    (hEnd : e.isEnd = false)
    (hA : strStartsWith e.pair.1 "player-head" = true)
    (hparse : parseHeadIdx e.pair.1 = some i)
    (hp : s.players.get? i = some p) :
    processEvent s e =
      if strStartsWith e.pair.2 "pill" then
        some { s with players := s.players.set i { p with max_len := p.max_len + 1 },
                      sprites := spritesRemove s.sprites e.pair.2 }
      else some { s with players := s.players.set i p.lost } := by
  rw [List.get?_eq_getElem?] at hp
  simp [processEvent, hEnd, hA, hparse, hp]

theorem processEvent_head_snd (s : Sim) (e : CollisionEvent) (i : Nat) (p : Player)
    (hEnd : e.isEnd = false)
    (hA : strStartsWith e.pair.1 "player-head" = false)
    (hB : strStartsWith e.pair.2 "player-head" = true)
    (hparse : parseHeadIdx e.pair.2 = some i)
    (hp : s.players.get? i = some p) :
    processEvent s e =
      if strStartsWith e.pair.1 "pill" then
        some { s with players := s.players.set i { p with max_len := p.max_len + 1 },
                      sprites := spritesRemove s.sprites e.pair.1 }
      else some { s with players := s.players.set i p.lost } := by
  rw [List.get?_eq_getElem?] at hp
  simp [processEvent, hEnd, hA, hB, hparse, hp]

theorem scan_fst_none (obs : List Obstacle) (n : Nat) (l1 l2 : String)
    (acc : Option Nat × Option Nat) (h : ∀ ob ∈ obs, ob.label ≠ l1) :
    (scanObstacles obs n l1 l2 acc).1 = acc.1 := by
  induction obs generalizing n acc with
  | nil => rfl
  | cons ob rest ih =>
    have hob : ¬ ob.label = l1 := h ob (List.mem_cons_self _ _)
    have hrest : ∀ x ∈ rest, x.label ≠ l1 := fun x hx => h x (List.mem_cons_of_mem _ hx)
    simp only [scanObstacles, if_neg hob]
    by_cases h2 : ob.label = l2
    · rw [if_pos h2]
      exact ih _ _ hrest
    · rw [if_neg h2]
      exact ih _ _ hrest

theorem scan_snd_none (obs : List Obstacle) (n : Nat) (l1 l2 : String)
    (acc : Option Nat × Option Nat) (h : ∀ ob ∈ obs, ob.label = l1 ∨ ob.label ≠ l2) :
    (scanObstacles obs n l1 l2 acc).2 = acc.2 := by
  induction obs generalizing n acc with
  | nil => rfl
  | cons ob rest ih =>
    have hrest : ∀ x ∈ rest, x.label = l1 ∨ x.label ≠ l2 :=
      fun x hx => h x (List.mem_cons_of_mem _ hx)
    rcases h ob (List.mem_cons_self _ _) with h1 | h1
    · simp only [scanObstacles, if_pos h1]
      exact ih _ _ hrest
    · simp only [scanObstacles]
      by_cases hl1 : ob.label = l1
      · rw [if_pos hl1]
        exact ih _ _ hrest
      · rw [if_neg hl1, if_neg h1]
        exact ih _ _ hrest

/-- C1: a collision start event pairing a player's head label with a pill label, in either order, increments that player's max length by exactly one, removes exactly that pill entry from the sprite registry, and leaves the player's lifecycle state, the trail, and the obstacles untouched. -/
theorem claim1_eat_pill (s : Sim) (e : CollisionEvent) (i : Nat) (p : Player) (pl : String)
    (hEnd : e.isEnd = false)
    (hi : i < MAX_NR_PLAYERS)
    (hpill : strStartsWith pl "pill" = true)
    (hpair : e.pair = (headLabelOf i, pl) ∨ e.pair = (pl, headLabelOf i))
    (hp : s.players.get? i = some p)
    (hpres : spritesGet s.sprites pl ≠ none) :
    ∃ s', processEvent s e = some s' ∧
      (s'.players.get? i).map Player.max_len = some (p.max_len + 1) ∧
      (s'.players.get? i).map Player.state = some p.state ∧
      (s'.players.get? i).map Player.labels = some p.labels ∧
      s'.sprites = spritesRemove s.sprites pl ∧
      s'.sprites.length + 1 = s.sprites.length ∧
      (∀ k, k ≠ pl → spritesGet s'.sprites k = spritesGet s.sprites k) ∧
      s'.obstacles = s.obstacles := by
  have hget : (s.players.set i { p with max_len := p.max_len + 1 }).get? i =
      some { p with max_len := p.max_len + 1 } := list_set_get?_same s.players i _ p hp
  rw [List.get?_eq_getElem?] at hget
  rcases hpair with hpair | hpair
  · have h1 : e.pair.1 = headLabelOf i := by rw [hpair]
    have h2 : e.pair.2 = pl := by rw [hpair]
    have hA : strStartsWith e.pair.1 "player-head" = true := by
      rw [h1]
      exact startsWith_headLabelOf i
    have hparse : parseHeadIdx e.pair.1 = some i := by
      rw [h1]
      exact parse_headLabelOf i hi
    have heval := processEvent_head_fst s e i p hEnd hA hparse hp
    rw [h2] at heval
    rw [heval, if_pos hpill]
    refine ⟨_, rfl, ?_, ?_, ?_, rfl, spritesRemove_length s.sprites pl hpres,
      fun k hk => spritesRemove_get_ne s.sprites pl k hk, rfl⟩ <;> simp [hget]
  · have h1 : e.pair.1 = pl := by rw [hpair]
    have h2 : e.pair.2 = headLabelOf i := by rw [hpair]
    have hA : strStartsWith e.pair.1 "player-head" = false := by
      rw [h1]
      exact pill_not_head pl hpill
    have hB : strStartsWith e.pair.2 "player-head" = true := by
      rw [h2]
      exact startsWith_headLabelOf i
    have hparse : parseHeadIdx e.pair.2 = some i := by
      rw [h2]
      exact parse_headLabelOf i hi
    have heval := processEvent_head_snd s e i p hEnd hA hB hparse hp
    rw [h1] at heval
    rw [heval, if_pos hpill]
    refine ⟨_, rfl, ?_, ?_, ?_, rfl, spritesRemove_length s.sprites pl hpres,
      fun k hk => spritesRemove_get_ne s.sprites pl k hk, rfl⟩ <;> simp [hget]

/-- Witness for C1: player 0's head meets the pill "pill0" in the concrete state c1state. -/
theorem claim1_eat_pill_witness :
    c1event.isEnd = false ∧ 0 < MAX_NR_PLAYERS ∧ strStartsWith "pill0" "pill" = true ∧
    (c1event.pair = (headLabelOf 0, "pill0") ∨ c1event.pair = ("pill0", headLabelOf 0)) ∧
    c1state.players.get? 0 = some c1p0 ∧ spritesGet c1state.sprites "pill0" ≠ none ∧
    (∃ s', processEvent c1state c1event = some s' ∧
      (s'.players.get? 0).map Player.max_len = some (c1p0.max_len + 1) ∧
      (s'.players.get? 0).map Player.state = some c1p0.state ∧
      (s'.players.get? 0).map Player.labels = some c1p0.labels ∧
      s'.sprites = spritesRemove c1state.sprites "pill0" ∧
      s'.sprites.length + 1 = c1state.sprites.length ∧
      (∀ k, k ≠ "pill0" → spritesGet s'.sprites k = spritesGet c1state.sprites k) ∧
      s'.obstacles = c1state.obstacles) :=
  ⟨rfl, by decide, by decide, Or.inl (by decide), rfl, by decide,
    claim1_eat_pill c1state c1event 0 c1p0 "pill0" rfl (by decide) (by decide)
      (Or.inl (by decide)) rfl (by decide)⟩

/-- C4 counterexample: a collision start event pairing a trail segment label of player 0 with a pill is ignored by the code: the state is returned unchanged, the pill stays registered and no max length changes, although the claim requires the pill to be eaten. -/
theorem claim4_counterexample :
    processEvent c4state c4event = some c4state ∧
    (c4state.players.get? 0).map Player.max_len = some 4 ∧
    (spritesGet c4state.sprites "pill0").isSome = true ∧
    strStartsWith "player-tail0.0" "player-tail" = true ∧
    strStartsWith "pill0" "pill" = true :=
  ⟨rfl, rfl, rfl, rfl, rfl⟩

/-- C4 amended: the player versus X resolution fires only when one label is a head label, in either pair position: the head side is the first component if it starts with "player-head", else the second; that player then eats the pill or loses accordingly. An event whose only player avatar label is a trail segment is ignored with no state change. -/
theorem claim4_amended (s : Sim) (e : CollisionEvent) (i : Nat) (p : Player)
    (hEnd : e.isEnd = false)
    (hi : i < MAX_NR_PLAYERS)
    (hp : s.players.get? i = some p) :
    (e.pair.1 = headLabelOf i →
      processEvent s e =
        if strStartsWith e.pair.2 "pill" then
          some { s with players := s.players.set i { p with max_len := p.max_len + 1 },
                        sprites := spritesRemove s.sprites e.pair.2 }
        else some { s with players := s.players.set i p.lost }) ∧
    (strStartsWith e.pair.1 "player-head" = false → e.pair.2 = headLabelOf i →
      processEvent s e =
        if strStartsWith e.pair.1 "pill" then
          some { s with players := s.players.set i { p with max_len := p.max_len + 1 },
                        sprites := spritesRemove s.sprites e.pair.1 }
        else some { s with players := s.players.set i p.lost }) ∧
    ((strStartsWith e.pair.1 "player-tail" = true ∨ strStartsWith e.pair.2 "player-tail" = true) →
      strStartsWith e.pair.1 "player-head" = false →
      strStartsWith e.pair.2 "player-head" = false →
      processEvent s e = some s) := by
  refine ⟨?_, ?_, ?_⟩
  · intro hlab
    have hA : strStartsWith e.pair.1 "player-head" = true := by
      rw [hlab]
      exact startsWith_headLabelOf i
    have hparse : parseHeadIdx e.pair.1 = some i := by
      rw [hlab]
      exact parse_headLabelOf i hi
    exact processEvent_head_fst s e i p hEnd hA hparse hp
  · intro hA hlab
    have hB : strStartsWith e.pair.2 "player-head" = true := by
      rw [hlab]
      exact startsWith_headLabelOf i
    have hparse : parseHeadIdx e.pair.2 = some i := by
      rw [hlab]
      exact parse_headLabelOf i hi
    exact processEvent_head_snd s e i p hEnd hA hB hparse hp
  · intro htail hA hB
    rcases htail with ht | ht
    · have ho := tail_not_obstacle _ ht
      simp [processEvent, hEnd, hA, hB, ho]
    · have ho := tail_not_obstacle _ ht
      simp [processEvent, hEnd, hA, hB, ho]

/-- Witness for the amended C4 at two concrete events: the trail versus pill event is ignored, and the head-in-second-position event ("obstacle3", "player-head0") resolves to player 0 losing. -/
theorem claim4_amended_witness :
    c4event.isEnd = false ∧ c4wEvent.isEnd = false ∧ 0 < MAX_NR_PLAYERS ∧
    c4state.players.get? 0 = some c4p0 ∧
    processEvent c4state c4event = some c4state ∧
    processEvent c4state c4wEvent =
      some { c4state with players := c4state.players.set 0 c4p0.lost } := by
  refine ⟨rfl, rfl, by decide, rfl, ?_, ?_⟩
  · exact (claim4_amended c4state c4event 0 c4p0 rfl (by decide) rfl).2.2
      (Or.inl (by decide)) (by decide) (by decide)
  · have h := (claim4_amended c4state c4wEvent 0 c4p0 rfl (by decide) rfl).2.1
      (by decide) (by decide)
    rw [h]
    rfl

/-- C5 counterexample: player 0 is already LOST, yet the collision of its head with a pill still changes its record: max length goes from 4 to 5, so a further collision start event is not free of state change as the claim requires. -/
theorem claim5_counterexample :
    c5p0.state = PlayerState.LOST ∧
    (processEvent c5state c5event).bind (fun s => (s.players.get? 0).map Player.max_len) =
      some 5 ∧
    c5p0.max_len = 4 :=
  ⟨rfl, rfl, rfl⟩

/-- C5 amended: a non pill collision on a player's head, with the head label in either pair position, sets that player to LOST through Player::lost and changes nothing else; when the player is already LOST this is a no-op, the whole state is returned unchanged. Pill collisions are excluded: they still mutate max_len even while LOST. -/
theorem claim5_amended (s : Sim) (e : CollisionEvent) (i : Nat) (p : Player)
    (hEnd : e.isEnd = false)
    (hi : i < MAX_NR_PLAYERS)
    (hp : s.players.get? i = some p) :
    (e.pair.1 = headLabelOf i → strStartsWith e.pair.2 "pill" = false →
      processEvent s e = some { s with players := s.players.set i p.lost } ∧
      (p.state = PlayerState.LOST → processEvent s e = some s)) ∧
    (strStartsWith e.pair.1 "player-head" = false → e.pair.2 = headLabelOf i →
      strStartsWith e.pair.1 "pill" = false →
      processEvent s e = some { s with players := s.players.set i p.lost } ∧
      (p.state = PlayerState.LOST → processEvent s e = some s)) := by
  have hpe : p.state = PlayerState.LOST → p.lost = p := by
    intro hlost
    cases p
    simp only [Player.lost]
    simp_all
  constructor
  · intro hpair1 hnp
    have hA : strStartsWith e.pair.1 "player-head" = true := by
      rw [hpair1]
      exact startsWith_headLabelOf i
    have hparse : parseHeadIdx e.pair.1 = some i := by
      rw [hpair1]
      exact parse_headLabelOf i hi
    have heval := processEvent_head_fst s e i p hEnd hA hparse hp
    rw [if_neg (by simp [hnp])] at heval
    refine ⟨heval, fun hlost => ?_⟩
    rw [heval, hpe hlost, list_set_get?_self s.players i p hp]
  · intro hA hpair2 hnp
    have hB : strStartsWith e.pair.2 "player-head" = true := by
      rw [hpair2]
      exact startsWith_headLabelOf i
    have hparse : parseHeadIdx e.pair.2 = some i := by
      rw [hpair2]
      exact parse_headLabelOf i hi
    have heval := processEvent_head_snd s e i p hEnd hA hB hparse hp
    rw [if_neg (by simp [hnp])] at heval
    refine ⟨heval, fun hlost => ?_⟩
    rw [heval, hpe hlost, list_set_get?_self s.players i p hp]

/-- Witness for the amended C5 at two concrete events: the LOST player 0's head meets the non pill label "obstacle7" with the head first and with the head second; both leave the state unchanged. -/
theorem claim5_amended_witness :
    c5wEvent.isEnd = false ∧ c5w2Event.isEnd = false ∧ 0 < MAX_NR_PLAYERS ∧
    c5state.players.get? 0 = some c5p0 ∧ c5p0.state = PlayerState.LOST ∧
    processEvent c5state c5wEvent = some c5state ∧
    processEvent c5state c5w2Event = some c5state := by
  refine ⟨rfl, rfl, by decide, rfl, rfl, ?_, ?_⟩
  · exact ((claim5_amended c5state c5wEvent 0 c5p0 rfl (by decide) rfl).1
      (by decide) (by decide)).2 rfl
  · exact ((claim5_amended c5state c5w2Event 0 c5p0 rfl (by decide) rfl).2
      (by decide) (by decide) (by decide)).2 rfl

/-- C6 counterexample: players 0 and 1 are both PLAYING and their heads collide, yet only player 0 (the first pair component) transitions to LOST; player 1 stays PLAYING, contradicting the claim that both transition. -/
theorem claim6_counterexample :
    c6p0.state = PlayerState.PLAYING ∧ c6p1.state = PlayerState.PLAYING ∧
    (processEvent c6state c6event).bind (fun s => (s.players.get? 0).map Player.state) =
      some PlayerState.LOST ∧
    (processEvent c6state c6event).bind (fun s => (s.players.get? 1).map Player.state) =
      some PlayerState.PLAYING ∧
    PlayerState.PLAYING ≠ PlayerState.LOST :=
  ⟨rfl, rfl, rfl, rfl, by decide⟩

/-- C6 amended: for a head versus head collision of two distinct players, only the player owning the first pair component transitions to LOST; the other player's record is returned unchanged. -/
theorem claim6_amended (s : Sim) (e : CollisionEvent) (i j : Nat) (p q : Player)
    (hEnd : e.isEnd = false)
    (hi : i < MAX_NR_PLAYERS)
    (hj : j < MAX_NR_PLAYERS)
    (hpair : e.pair = (headLabelOf i, headLabelOf j))
    (hne : i ≠ j)
    (hp : s.players.get? i = some p)
    (hq : s.players.get? j = some q) :
    processEvent s e = some { s with players := s.players.set i p.lost } ∧
    ((s.players.set i p.lost).get? i).map Player.state = some PlayerState.LOST ∧
    (s.players.set i p.lost).get? j = some q := by
  have h1 : e.pair.1 = headLabelOf i := by rw [hpair]
  have h2 : e.pair.2 = headLabelOf j := by rw [hpair]
  have hA : strStartsWith e.pair.1 "player-head" = true := by
    rw [h1]
    exact startsWith_headLabelOf i
  have hparse : parseHeadIdx e.pair.1 = some i := by
    rw [h1]
    exact parse_headLabelOf i hi
  have hnp : strStartsWith e.pair.2 "pill" = false := by
    rw [h2]
    exact head_not_pill _ (startsWith_headLabelOf j)
  have heval := processEvent_head_fst s e i p hEnd hA hparse hp
  rw [if_neg (by simp [hnp])] at heval
  refine ⟨heval, ?_, ?_⟩
  · rw [list_set_get?_same s.players i p.lost p hp]
    rfl
  · rw [List.get?_set_ne _ _ hne]
    exact hq

/-- Witness for the amended C6 at the concrete head versus head event of players 0 and 1. -/
theorem claim6_amended_witness :
    c6event.isEnd = false ∧ 0 < MAX_NR_PLAYERS ∧ 1 < MAX_NR_PLAYERS ∧
    c6event.pair = (headLabelOf 0, headLabelOf 1) ∧ (0 : Nat) ≠ 1 ∧
    c6state.players.get? 0 = some c6p0 ∧ c6state.players.get? 1 = some c6p1 ∧
    (processEvent c6state c6event =
        some { c6state with players := c6state.players.set 0 c6p0.lost } ∧
      ((c6state.players.set 0 c6p0.lost).get? 0).map Player.state = some PlayerState.LOST ∧
      (c6state.players.set 0 c6p0.lost).get? 1 = some c6p1) :=
  ⟨rfl, by decide, by decide, by decide, by decide, rfl, rfl,
    claim6_amended c6state c6event 0 1 c6p0 c6p1 rfl (by decide) (by decide) (by decide)
      (by decide) rfl rfl⟩

/-- C10: a collision start event whose two labels both start with "obstacle" is a silent no-op whenever at least one label has no matching obstacle entry or the two labels are equal: the state is returned unchanged and no panic path is taken. -/
theorem claim10_missing_obstacle_noop (s : Sim) (e : CollisionEvent)
    (hEnd : e.isEnd = false)
    (h1 : strStartsWith e.pair.1 "obstacle" = true)
    (h2 : strStartsWith e.pair.2 "obstacle" = true)
    (hmiss : (∀ ob ∈ s.obstacles, ob.label ≠ e.pair.1) ∨
      (∀ ob ∈ s.obstacles, ob.label ≠ e.pair.2) ∨ e.pair.1 = e.pair.2) :
    processEvent s e = some s := by
  have hA := obstacle_not_head _ h1
  have hB := obstacle_not_head _ h2
  have hscan : (scanObstacles s.obstacles 0 e.pair.1 e.pair.2 (none, none)).1 = none ∨
      (scanObstacles s.obstacles 0 e.pair.1 e.pair.2 (none, none)).2 = none := by
    rcases hmiss with h | h | h
    · exact Or.inl (scan_fst_none _ _ _ _ _ h)
    · exact Or.inr (scan_snd_none _ _ _ _ _ (fun ob hob => Or.inr (h ob hob)))
    · refine Or.inr (scan_snd_none _ _ _ _ _ (fun ob hob => ?_))
      by_cases hl : ob.label = e.pair.2
      · exact Or.inl (by rw [hl, h])
      · exact Or.inr hl
  cases hres : scanObstacles s.obstacles 0 e.pair.1 e.pair.2 (none, none) with
  | mk o1 o2 =>
    rw [hres] at hscan
    rcases hscan with hs | hs
    · simp only at hs
      subst hs
      simp [processEvent, hEnd, hA, hB, h1, h2, hres]
    · simp only at hs
      subst hs
      cases o1 with
      | none => simp [processEvent, hEnd, hA, hB, h1, h2, hres]
      | some i1 => simp [processEvent, hEnd, hA, hB, h1, h2, hres]

/-- Witness for C10: the event names obstacle0, which is registered, and obstacle1, which is missing from the obstacle list; the state is unchanged. -/
theorem claim10_missing_obstacle_noop_witness :
    c10event.isEnd = false ∧ strStartsWith c10event.pair.1 "obstacle" = true ∧
    strStartsWith c10event.pair.2 "obstacle" = true ∧
    ((∀ ob ∈ c10state.obstacles, ob.label ≠ c10event.pair.1) ∨
      (∀ ob ∈ c10state.obstacles, ob.label ≠ c10event.pair.2) ∨
      c10event.pair.1 = c10event.pair.2) ∧
    processEvent c10state c10event = some c10state :=
  ⟨rfl, by decide, by decide, Or.inr (Or.inl (by decide)),
    claim10_missing_obstacle_noop c10state c10event rfl (by decide) (by decide)
      (Or.inr (Or.inl (by decide)))⟩
